import Mathlib

/-!
A shallow embedding of the panel layout engine of the NewTabPage repository:
the persistence store (`src/src/components/layout/layoutStorage.js`) and the
layout coordinator / interaction controller
(`src/newtab-extension/components/layoutManager.js`), together with proofs of
the testable properties stated for them.

Modelling conventions:
* JavaScript numbers are modelled as rationals (`Rat`); every value the claims
  touch is exactly representable.
* `localStorage` is modelled as an optional stored string plus a counter of
  successful `setItem` calls; a stored string is modelled by its parse result
  (`StoredString.obj d` for a JSON serialization of the object `d`, with
  `StoredString.obj` applied to the all-absent document standing for the
  literal string "\x7b\x7d"; `StoredString.malformed` for a string on which
  `JSON.parse` or subsequent field access throws).
* try/catch blocks become total functions returning the caught-path value;
  a possible quota failure of `localStorage.setItem` is the `writeOk` flag of
  the ambient environment `Env`.
-/

set_option autoImplicit false

namespace NewTab

/-- JavaScript numbers (all values appearing in the claims are exact). -/
abbrev JNum := Rat

/-- Widget identifiers (`widgetId` strings). -/
abbrev PanelId := String

/-- The geometry record stored per widget: `{ x, y, width, height, zIndex }`. -/
structure Geometry where
  x : JNum
  y : JNum
  width : JNum
  height : JNum
  zIndex : JNum
deriving DecidableEq, Repr

/-- The `layouts` object, keyed by widget id, in insertion order. -/
abbrev LayoutMap := List (PanelId × Geometry)

/-- Property read `layouts[widgetId]`. -/
def lookupLayout : LayoutMap → PanelId → Option Geometry
  | [], _ => none
  | (k, g) :: rest, id => if k = id then some g else lookupLayout rest id

/-- Property write `layouts[widgetId] = layout`: replace the existing entry in
place, or append a new one. -/
def setKey : LayoutMap → PanelId → Geometry → LayoutMap
  | [], id, g => [(id, g)]
  | (k, g0) :: rest, id, g =>
      if k = id then (k, g) :: rest else (k, g0) :: setKey rest id g

/-- Responsive breakpoint names returned by `getCurrentBreakpoint`. -/
inductive Breakpoint where
  | mobile
  | tablet
  | desktop
deriving DecidableEq, Repr

/-- `getCurrentBreakpoint` from layoutStorage.js: classify `window.innerWidth`. -/
def getCurrentBreakpoint (width : JNum) : Breakpoint :=
  if width < 768 then .mobile
  else if width < 1024 then .tablet
  else .desktop

/-- The parse result of a JSON object string, with each field of the persisted
layout document optional (absent fields read as `undefined`). -/
structure JsonDoc where
  version : Option Int
  breakpoint : Option Breakpoint
  timestamp : Option Int
  layouts : Option LayoutMap
deriving DecidableEq, Repr

/-- A string held in (or offered to) `localStorage`, modelled by how
`JSON.parse` treats it: `obj d` for a serialization of the object `d`
(the all-absent `d` models "\x7b\x7d"), `malformed` for a string on which
parsing or field access throws. -/
inductive StoredString where
  | obj (d : JsonDoc)
  | malformed
deriving DecidableEq, Repr

/-- `JSON.parse` under a try/catch: `none` is the thrown-and-caught case. -/
def jsonParse : StoredString → Option JsonDoc
  | .obj d => some d
  | .malformed => none

/-- Ambient environment of a storage operation: whether `localStorage.setItem`
succeeds (quota), plus `Date.now()` and `window.innerWidth` at call time. -/
structure Env where
  writeOk : Bool
  now : Int
  innerWidth : JNum
deriving DecidableEq, Repr

/-- The `localStorage` slot under `LAYOUT_STORAGE_KEY`, instrumented with the
number of successful `setItem` calls performed on it. -/
structure Store where
  content : Option StoredString
  writes : Nat
deriving DecidableEq, Repr

/-- `localStorage.setItem(LAYOUT_STORAGE_KEY, s)`: on success the slot holds
`s`; on quota failure it throws, leaving the slot unchanged (callers catch). -/
def setItem (env : Env) (st : Store) (s : StoredString) : Store :=
  if env.writeOk then ⟨some s, st.writes + 1⟩ else st

/-- `STORAGE_VERSION` from layoutStorage.js. -/
def STORAGE_VERSION : Int := 1

/-- `loadLayouts()` from layoutStorage.js: `null` when the slot is empty, when
`JSON.parse` throws (caught), or when `data.version !== STORAGE_VERSION`;
otherwise `data.layouts`.  Total: the try/catch means it never throws. -/
def loadLayouts (st : Store) : Option LayoutMap :=
  match st.content with
  | none => none
  | some stored =>
      match jsonParse stored with
      | none => none
      | some data =>
          if data.version = some STORAGE_VERSION then data.layouts else none

/-- `loadWidgetLayout(widgetId)` from layoutStorage.js. -/
def loadWidgetLayout (st : Store) (widgetId : PanelId) : Option Geometry :=
  match loadLayouts st with
  | some layouts => lookupLayout layouts widgetId
  | none => none

/-- `saveLayouts(layouts)` from layoutStorage.js: one `setItem` of a fresh
document with the current version, breakpoint and timestamp; a quota error is
caught and logged. -/
def saveLayouts (env : Env) (st : Store) (layouts : LayoutMap) : Store :=
  setItem env st (.obj
    { version := some STORAGE_VERSION
      breakpoint := some (getCurrentBreakpoint env.innerWidth)
      timestamp := some env.now
      layouts := some layouts })

/-- `saveWidgetLayout(widgetId, layout)` from layoutStorage.js:
read-modify-write of one entry. -/
def saveWidgetLayout (env : Env) (st : Store) (widgetId : PanelId)
    (layout : Geometry) : Store :=
  let layouts := (loadLayouts st).getD []
  saveLayouts env st (setKey layouts widgetId layout)

/-- `exportLayouts()` from layoutStorage.js: the raw stored string, or the
literal string "\x7b\x7d" (the all-absent object) when the slot is empty. -/
def exportLayouts (st : Store) : StoredString :=
  (st.content).getD (.obj ⟨none, none, none, none⟩)

/-- JavaScript truthiness of the `version` field: absent (`undefined`) and the
number `0` are falsy. -/
def truthyVersion : Option Int → Bool
  | none => false
  | some v => v != 0

/-- `importLayouts(jsonString)` from layoutStorage.js: parse, check
`data.version && data.layouts` (an object `layouts` field is always truthy),
then store the original string verbatim; any throw (parse or `setItem`) is
caught and yields `false` with storage untouched. -/
def importLayouts (env : Env) (st : Store) (jsonString : StoredString) :
    Bool × Store :=
  match jsonParse jsonString with
  | none => (false, st)
  | some data =>
      if truthyVersion data.version && (data.layouts).isSome then
        (env.writeOk, setItem env st jsonString)
      else
        (false, st)

/-- `clearAllLayouts()` from layoutStorage.js: `removeItem` on the slot. -/
def clearAllLayouts (st : Store) : Store :=
  { st with content := none }

/-! ## Geometry resolver (layoutManager.js) -/

/-- A position/size specification value as `parseValue` inspects it: either a
JavaScript number, or a string characterized by whether it contains a percent
sign and by its `parseFloat` value (so `.str true 55` models the string
composed of 55 and the percent sign, `.str false 560` models "560px"). -/
inductive JSVal where
  | num (n : JNum)
  | str (hasPercent : Bool) (parsed : JNum)
deriving DecidableEq, Repr

/-- `parseValue(value, reference)` from layoutManager.js: a string containing a
percent sign resolves as a fraction of the reference length; anything else is
`parseFloat`-ed literally (for a number, `parseFloat` is the identity). -/
def parseValue (value : JSVal) (reference : JNum) : JNum :=
  match value with
  | .str true p => p / 100 * reference
  | .str false p => p
  | .num n => n

/-- JavaScript `a || d` for an optional numeric field: absent and `0` fall
back to the default. -/
def jsOrNum (v : Option JNum) (d : JNum) : JNum :=
  match v with
  | some n => if n = 0 then d else n
  | none => d

/-- The fields of the (merged) layout config that `getDefaultPosition` reads;
absent fields model `undefined`. -/
structure DefaultConfig where
  defaultPosition : Option (JSVal × JSVal)
  defaultSize : Option (JSVal × JSVal)
  zIndex : Option JNum
deriving DecidableEq, Repr

/-- `getDefaultPosition(config)` from layoutManager.js: resolve x/width
against `window.innerWidth`, y/height against `window.innerHeight`, and take
`config.zIndex || 1`. -/
def getDefaultPosition (config : DefaultConfig) (innerWidth innerHeight : JNum) :
    Geometry :=
  let defaultPos := (config.defaultPosition).getD (.num 100, .num 100)
  let defaultSize := (config.defaultSize).getD (.num 400, .num 300)
  { x := parseValue defaultPos.1 innerWidth
    y := parseValue defaultPos.2 innerHeight
    width := parseValue defaultSize.1 innerWidth
    height := parseValue defaultSize.2 innerHeight
    zIndex := jsOrNum config.zIndex 1 }

/-! ## Interaction controller (layoutManager.js) -/

/-- A CSS z-index value as applied to `container.style.zIndex`. -/
inductive ZStyle where
  | num (n : JNum)
  | auto
deriving DecidableEq, Repr

/-- The applied value `position.zIndex || 'auto'` used by `applyPosition` and
`onDragEnd`. -/
def zIndexStyle (z : JNum) : ZStyle :=
  if z = 0 then .auto else .num z

/-- The per-panel state the gesture handlers touch: the in-memory cache entry
`widgetPositions.get(widgetId)` plus the applied style of the container. -/
structure PanelState where
  pos : Geometry
  styleX : JNum
  styleY : JNum
  styleW : JNum
  styleH : JNum
  styleZ : ZStyle
  dragging : Bool
deriving DecidableEq, Repr

/-- `applyPosition(container, position)` from layoutManager.js, together with
`widgetPositions.set` as done at widget initialization: the applied style
mirrors the geometry and `style.zIndex` is `position.zIndex || 'auto'`. -/
def applyPosition (g : Geometry) : PanelState :=
  { pos := g
    styleX := g.x
    styleY := g.y
    styleW := g.width
    styleH := g.height
    styleZ := zIndexStyle g.zIndex
    dragging := false }

/-- `onDragStart` from layoutManager.js: mark dragging, bring to front with
the sentinel `style.zIndex = 1000`. -/
def onDragStart (s : PanelState) : PanelState :=
  { s with dragging := true, styleZ := .num 1000 }

/-- `onDragMove` from layoutManager.js: add the pointer delta to the cached
position and re-apply the transform. -/
def onDragMove (s : PanelState) (dx dy : JNum) : PanelState :=
  let p := { s.pos with x := s.pos.x + dx, y := s.pos.y + dy }
  { s with pos := p, styleX := p.x, styleY := p.y }

/-- A whole `move*` phase: fold `onDragMove` over the reported deltas. -/
def dragMoves (s : PanelState) (deltas : List (JNum × JNum)) : PanelState :=
  deltas.foldl (fun t d => onDragMove t d.1 d.2) s

/-- `onDragEnd` from layoutManager.js, container part: clear the dragging
marker and reset `style.zIndex` to `position.zIndex || 'auto'` (the debounced
save it also requests is modelled on `CoordState`). -/
def onDragEnd (s : PanelState) : PanelState :=
  { s with dragging := false, styleZ := zIndexStyle s.pos.zIndex }

/-- The hit-test facts about a pointer-down that the drag-start gating reads. -/
structure DragStartCtx where
  modifierHeld : Bool
  handleConfigured : Bool
  targetInHandle : Bool
  targetInIgnored : Bool
deriving DecidableEq, Repr

/-- The drag-start dispatch of `makeDraggable` from layoutManager.js.  The
outer guard models the `ignoreFrom: input, textarea, button, select, a`
option (modelled from the spec: the interact.js library that implements
`ignoreFrom` is loaded from a script tag and is not part of the repository;
per the spec it suppresses gestures originating in excluded interactive
descendants before any listener runs).  The inner branch is the source's
`start` listener: `isDragHandle` requires a configured handle containing the
target, and without it or the modifier the incipient interaction is stopped
before any move event. -/
def dragStartDispatch (ctx : DragStartCtx) (s : PanelState) :
    Bool × PanelState :=
  if ctx.targetInIgnored then
    (false, s)
  else
    let isDragHandle := ctx.handleConfigured && ctx.targetInHandle
    if !ctx.modifierHeld && !isDragHandle then
      (false, s)
    else
      (true, onDragStart s)

/-- The gating condition as the design states it: free-drag mode is active, or
the gesture originated inside the configured drag handle and not inside an
excluded interactive descendant. -/
def dragAllowedCond (ctx : DragStartCtx) : Bool :=
  ctx.modifierHeld ||
    (ctx.handleConfigured && ctx.targetInHandle && !ctx.targetInIgnored)

/-- The fields of `event.rect` / `event.deltaRect` that `onResizeMove` reads. -/
structure ResizeEvent where
  rectWidth : JNum
  rectHeight : JNum
  deltaLeft : JNum
  deltaTop : JNum
deriving DecidableEq, Repr

/-- `onResizeMove` from layoutManager.js: take the reported rectangle as the
new size, shift the position by the reported top/left delta, re-apply. -/
def onResizeMove (s : PanelState) (e : ResizeEvent) : PanelState :=
  let p := { s.pos with
    width := e.rectWidth
    height := e.rectHeight
    x := s.pos.x + e.deltaLeft
    y := s.pos.y + e.deltaTop }
  { s with
    pos := p
    styleX := p.x
    styleY := p.y
    styleW := p.width
    styleH := p.height }

/-- Modelled from the spec: the interact.js `restrictSize` modifier configured
by `makeResizable` (the library itself is loaded from a script tag and is not
part of the repository).  For a bottom/right-edge resize requesting the size
`(reqW, reqH)`, the reported rectangle has each dimension clamped up to the
configured minimum, no maximum is applied, and the top/left deltas are zero
because the anchor is the top-left corner. -/
def mkResizeEvent (minW minH reqW reqH : JNum) : ResizeEvent :=
  { rectWidth := if reqW < minW then minW else reqW
    rectHeight := if reqH < minH then minH else reqH
    deltaLeft := 0
    deltaTop := 0 }

/-- The minimum-size extraction of `makeResizable` from layoutManager.js:
`layoutConfig.minSize?.width || 200` and `layoutConfig.minSize?.height || 150`. -/
def resizableMin (minSize : Option (JNum × JNum)) : JNum × JNum :=
  (jsOrNum (minSize.map Prod.fst) 200, jsOrNum (minSize.map Prod.snd) 150)

/-! ## Layout coordinator: debounced persistence (layoutManager.js) -/

/-- The coordinator state the persistence path touches: the storage slot, the
in-memory cache `widgetPositions`, and the single shared debounce timer
`saveTimeout`.  An armed timer holds the `widgetId` and `position` captured by
the `debounceSave` closure (the captured `position` is the live cache entry of
that widget: the handlers mutate it in place, so at capture time it equals
`widgetPositions.get(widgetId)`). -/
structure CoordState where
  store : Store
  mem : LayoutMap
  pendingSave : Option (PanelId × Geometry)
deriving DecidableEq, Repr

/-- `debounceSave(widgetId, position)` from layoutManager.js:
`clearTimeout(saveTimeout)` then re-arm the one shared timer with the new
capture — re-arming forgets any previously pending widget. -/
def debounceSave (st : CoordState) (id : PanelId) (g : Geometry) : CoordState :=
  { st with pendingSave := some (id, g) }

/-- A gesture on panel `id` ends with in-memory geometry `g`: the move
handlers have updated the cache entry to `g`, and `onDragEnd` / `onResizeEnd`
call `debounceSave(id, position)`. -/
def gestureEndEvent (st : CoordState) (id : PanelId) (g : Geometry) :
    CoordState :=
  debounceSave { st with mem := setKey st.mem id g } id g

/-- The armed `saveTimeout` fires: one `saveWidgetLayout(widgetId, position)`
call for the captured widget only. -/
def timerFire (env : Env) (st : CoordState) : CoordState :=
  match st.pendingSave with
  | none => st
  | some (id, g) =>
      { st with
        store := saveWidgetLayout env st.store id g
        pendingSave := none }

/-- The events of the persistence path. -/
inductive LEvent where
  | gestureEnd (id : PanelId) (g : Geometry)
  | fire
deriving DecidableEq, Repr

/-- One event step of the coordinator. -/
def stepEvent (env : Env) (st : CoordState) : LEvent → CoordState
  | .gestureEnd id g => gestureEndEvent st id g
  | .fire => timerFire env st

/-- Run a sequence of events. -/
def runEvents (env : Env) (st : CoordState) (evs : List LEvent) : CoordState :=
  evs.foldl (stepEvent env) st

/-- Does a snapshot string parse to a document with both the version and the
layouts fields present?  Formalizes the validity condition of the import
contract. -/
def snapshotHasFields (s : StoredString) : Bool :=
  match jsonParse s with
  | some d => (d.version).isSome && (d.layouts).isSome
  | none => false

/-! ## Concrete fixtures used by witnesses and counterexamples -/

/-- An environment in which `localStorage.setItem` succeeds, on a desktop
viewport. -/
def envOk : Env := ⟨true, 0, 1920⟩

/-- Registered geometry of a first demo panel. -/
def gA : Geometry := ⟨10, 10, 400, 300, 1⟩

/-- Geometry of the first demo panel after its gesture. -/
def gA2 : Geometry := ⟨50, 0, 400, 300, 1⟩

/-- Registered geometry of a second demo panel. -/
def gB : Geometry := ⟨500, 10, 400, 300, 2⟩

/-- Geometry of the second demo panel after its gesture. -/
def gB2 : Geometry := ⟨600, 20, 400, 300, 2⟩

/-- A coordinator with two registered panels, empty storage, no armed timer. -/
def twoPanelInit : CoordState := ⟨⟨none, 0⟩, [("a", gA), ("b", gB)], none⟩

/-- Two gesture ends inside one debounce window, then the shared timer fires. -/
def afterBurst : CoordState :=
  runEvents envOk twoPanelInit
    [.gestureEnd "a" gA2, .gestureEnd "b" gB2, .fire]

/-- A demo layouts map. -/
def demoLayouts : LayoutMap := [("clock", ⟨140, 90, 400, 300, 1⟩)]

/-! ## Helper lemmas -/

/-- A successful `saveLayouts` is read back by `loadLayouts` as exactly the
map that was saved. -/
lemma loadLayouts_saveLayouts (env : Env) (st : Store) (layouts : LayoutMap)
    (h : env.writeOk = true) :
    loadLayouts (saveLayouts env st layouts) = some layouts := by
  simp [loadLayouts, saveLayouts, setItem, h, jsonParse]

/-- Looking up the key just written by `setKey` yields the written geometry. -/
lemma lookupLayout_setKey_self (m : LayoutMap) (id : PanelId) (g : Geometry) :
    lookupLayout (setKey m id g) id = some g := by
  induction m with
  | nil => simp [setKey, lookupLayout]
  | cons kv rest ih =>
      obtain ⟨k, g0⟩ := kv
      by_cases h : k = id
      · simp [setKey, lookupLayout, h]
      · simp [setKey, lookupLayout, h, ih]

/-- Gesture-end events never touch the storage slot: all writes are deferred
to the debounce timer. -/
lemma runEvents_gestureEnds_store (env : Env)
    (ends : List (PanelId × Geometry)) (st : CoordState) :
    (runEvents env st (ends.map fun e => LEvent.gestureEnd e.1 e.2)).store
      = st.store := by
  induction ends generalizing st with
  | nil => rfl
  | cons e rest ih =>
      simpa [runEvents, stepEvent, gestureEndEvent, debounceSave]
        using ih (gestureEndEvent st e.1 e.2)

/-- During a move phase neither the cached `zIndex` nor the applied
`style.zIndex` changes. -/
lemma dragMoves_zIndex (s : PanelState) (ds : List (JNum × JNum)) :
    (dragMoves s ds).pos.zIndex = s.pos.zIndex ∧
      (dragMoves s ds).styleZ = s.styleZ := by
  induction ds generalizing s with
  | nil => exact ⟨rfl, rfl⟩
  | cons d rest ih =>
      simpa [dragMoves, onDragMove] using ih (onDragMove s d.1 d.2)

/-! ## Claims -/

/-- Claim C2: for every percentage spec the resolved value is the fraction of
the reference length, and for every absolute numeric spec the resolved value
is the number itself, independent of the reference length. -/
theorem parseValue_percentage_and_absolute :
    (∀ p L : JNum, parseValue (.str true p) L = p / 100 * L) ∧
    (∀ n L : JNum, parseValue (.num n) L = n) ∧
    (∀ n L L' : JNum, parseValue (.num n) L = parseValue (.num n) L') :=
  ⟨fun _ _ => rfl, fun _ _ => rfl, fun _ _ _ => rfl⟩

/-- Claim C3: saving a layouts map and loading it back returns the same map,
provided the storage write succeeds (the freshly written version always
matches the current schema version). -/
theorem save_load_roundtrip (env : Env) (st : Store) (layouts : LayoutMap)
    (h : env.writeOk = true) :
    loadLayouts (saveLayouts env st layouts) = some layouts :=
  loadLayouts_saveLayouts env st layouts h

/-- Witness for claim C3 at a concrete environment, empty storage and a
one-panel map. -/
theorem save_load_roundtrip_witness :
    loadLayouts (saveLayouts envOk ⟨none, 0⟩ demoLayouts) = some demoLayouts :=
  save_load_roundtrip envOk ⟨none, 0⟩ demoLayouts rfl

/-- Claim C4: `loadLayouts` degrades to `null` (it is a total function, the
try/catch never lets it throw) when the slot is empty, when the stored content
is malformed, and when the stored version differs from the current schema
version; in particular a document written with the previous version loads as
`null`. -/
theorem loadLayouts_degrades_to_null :
    (∀ w, loadLayouts ⟨none, w⟩ = none) ∧
    (∀ w, loadLayouts ⟨some .malformed, w⟩ = none) ∧
    (∀ w d, d.version ≠ some STORAGE_VERSION →
        loadLayouts ⟨some (.obj d), w⟩ = none) ∧
    (∀ w bp ts ly,
        loadLayouts ⟨some (.obj ⟨some (STORAGE_VERSION - 1), bp, ts, ly⟩), w⟩
          = none) := by
  refine ⟨fun _ => rfl, fun _ => rfl, fun w d h => ?_, fun w bp ts ly => ?_⟩
  · simp [loadLayouts, jsonParse, h]
  · simp [loadLayouts, jsonParse, STORAGE_VERSION]

/-- Witness for claim C4: a version-0 document loads as `null` when the
current schema version is 1. -/
theorem loadLayouts_degrades_to_null_witness :
    loadLayouts ⟨some (.obj ⟨some 0, none, none, none⟩), 5⟩ = none :=
  loadLayouts_degrades_to_null.2.2.1 5 ⟨some 0, none, none, none⟩ (by decide)

/-- Claim C5: `importLayouts` returns `true` (committing the offered string
verbatim) only when the string parses and the parsed document carries both the
version and the layouts fields; whenever the string fails to parse or either
field is absent it returns `false` and the store — content and write count —
is exactly as before (no partial write). -/
theorem importLayouts_validates_before_commit (env : Env) (st : Store)
    (s : StoredString) :
    ((importLayouts env st s).1 = true →
        snapshotHasFields s = true ∧
          (importLayouts env st s).2.content = some s) ∧
    (snapshotHasFields s = false → importLayouts env st s = (false, st)) := by
  cases s with
  | malformed => simp [importLayouts, jsonParse, snapshotHasFields]
  | obj d =>
      obtain ⟨v, bp, ts, ly⟩ := d
      cases v with
      | none =>
          simp [importLayouts, jsonParse, snapshotHasFields, truthyVersion]
      | some n =>
          cases ly with
          | none =>
              simp [importLayouts, jsonParse, snapshotHasFields, truthyVersion]
          | some m =>
              by_cases hn : n = 0
              · subst hn
                simp [importLayouts, jsonParse, snapshotHasFields,
                  truthyVersion]
              · cases hw : env.writeOk <;>
                  simp [importLayouts, jsonParse, snapshotHasFields,
                    truthyVersion, hn, hw, setItem]

/-- Witness for claim C5: importing a malformed snapshot into an empty store
fails and leaves the store untouched. -/
theorem importLayouts_validates_before_commit_witness :
    importLayouts envOk ⟨none, 0⟩ .malformed = (false, ⟨none, 0⟩) :=
  (importLayouts_validates_before_commit envOk ⟨none, 0⟩ .malformed).2 rfl

/-- Claim C8: `getDefaultPosition` resolves x and width against the viewport
width, y and height against the viewport height, and copies the configured
z-index with default 1 when unset; on the weather-panel scenario (x 55
percent, y 50px, size 560px by 380px, viewport 1920 by 1080) the resolved
geometry is x 1056, y 50, width 560, height 380. -/
theorem getDefaultPosition_resolves_against_viewport :
    getDefaultPosition
        ⟨some (.str true 55, .str false 50),
         some (.str false 560, .str false 380), none⟩ 1920 1080
      = ⟨1056, 50, 560, 380, 1⟩ ∧
    (∀ (dp ds : Option (JSVal × JSVal)) (W H : JNum),
        (getDefaultPosition ⟨dp, ds, none⟩ W H).zIndex = 1) ∧
    (∀ (px py sw sh : JSVal) (z : Option JNum) (W H : JNum),
        getDefaultPosition ⟨some (px, py), some (sw, sh), z⟩ W H =
          ⟨parseValue px W, parseValue py H, parseValue sw W, parseValue sh H,
           jsOrNum z 1⟩) := by
  refine ⟨?_, fun dp ds W H => rfl, fun px py sw sh z W H => rfl⟩
  simp only [getDefaultPosition, parseValue, jsOrNum, Option.getD]
  norm_num

/-- Claim C10: on an empty store `exportLayouts` yields the bare empty-object
string — a document with neither version nor layouts fields, not a valid
persisted layout document — and importing that very string back fails and
stores nothing, so export followed by import does not round-trip the empty
state. -/
theorem export_import_empty_no_roundtrip :
    exportLayouts ⟨none, 0⟩ = .obj ⟨none, none, none, none⟩ ∧
    snapshotHasFields (exportLayouts ⟨none, 0⟩) = false ∧
    (∀ env : Env,
        importLayouts env ⟨none, 0⟩ (exportLayouts ⟨none, 0⟩)
          = (false, ⟨none, 0⟩)) :=
  ⟨rfl, rfl, fun _ => rfl⟩

/-- Claim C6: across a completed drag gesture (start, any number of moves,
end) the applied z-index returns to exactly its pre-gesture value, while
during the gesture it sits at the sentinel front value 1000.  The hypothesis
is the standing invariant that the applied `style.zIndex` equals
`position.zIndex || 'auto'`, established by `applyPosition` at registration
and re-established by every `onDragEnd`. -/
theorem drag_restores_zIndex (s : PanelState) (ds : List (JNum × JNum))
    (h : s.styleZ = zIndexStyle s.pos.zIndex) :
    (onDragEnd (dragMoves (onDragStart s) ds)).styleZ = s.styleZ ∧
    (dragMoves (onDragStart s) ds).styleZ = ZStyle.num 1000 := by
  have hz := dragMoves_zIndex (onDragStart s) ds
  constructor
  · show zIndexStyle (dragMoves (onDragStart s) ds).pos.zIndex = s.styleZ
    rw [hz.1, h]
    rfl
  · rw [hz.2]
    rfl

/-- Witness for claim C6: a freshly applied panel with z-index 4 dragged by
one (40, -10) move ends with the same applied z-index it started with. -/
theorem drag_restores_zIndex_witness :
    (onDragEnd (dragMoves (onDragStart (applyPosition ⟨100, 100, 400, 300, 4⟩))
        [(40, -10)])).styleZ
      = (applyPosition ⟨100, 100, 400, 300, 4⟩).styleZ ∧
    (dragMoves (onDragStart (applyPosition ⟨100, 100, 400, 300, 4⟩))
        [(40, -10)]).styleZ = ZStyle.num 1000 :=
  drag_restores_zIndex (applyPosition ⟨100, 100, 400, 300, 4⟩) [(40, -10)] rfl

/-- Claim C7: the drag-start dispatch accepts a gesture only when free-drag
mode is active or the pointer went down inside the configured drag handle and
outside the excluded interactive descendants; when neither condition holds the
gesture is rejected as a silent no-op and the panel state — its geometry
included — is returned unchanged, before any move is applied. -/
theorem drag_start_gating (ctx : DragStartCtx) (s : PanelState) :
    ((dragStartDispatch ctx s).1 = true → dragAllowedCond ctx = true) ∧
    (dragAllowedCond ctx = false → dragStartDispatch ctx s = (false, s)) := by
  obtain ⟨m, hc, th, ti⟩ := ctx
  cases m <;> cases hc <;> cases th <;> cases ti <;>
    simp [dragStartDispatch, dragAllowedCond, onDragStart]

/-- Witness for claim C7: with no modifier held and the pointer outside the
configured handle, the gesture is rejected and the state is unchanged. -/
theorem drag_start_gating_witness :
    dragStartDispatch ⟨false, true, false, false⟩ (applyPosition gA)
      = (false, applyPosition gA) :=
  (drag_start_gating ⟨false, true, false, false⟩ (applyPosition gA)).2 rfl

/-- Claim C9: a resize move through the configured minimum-size restriction
keeps width and height at or above the minimum; a request below the minimum is
silently clamped to exactly the minimum; a request at or above the minimum is
honoured as is (no maximum is enforced); and a bottom/right resize leaves the
anchored top-left position unchanged. -/
theorem resize_clamps_to_minSize (minW minH reqW reqH : JNum)
    (s : PanelState) :
    (minW ≤ (onResizeMove s (mkResizeEvent minW minH reqW reqH)).pos.width ∧
     minH ≤ (onResizeMove s (mkResizeEvent minW minH reqW reqH)).pos.height) ∧
    (reqW < minW →
      (onResizeMove s (mkResizeEvent minW minH reqW reqH)).pos.width = minW) ∧
    (reqH < minH →
      (onResizeMove s (mkResizeEvent minW minH reqW reqH)).pos.height = minH) ∧
    (minW ≤ reqW →
      (onResizeMove s (mkResizeEvent minW minH reqW reqH)).pos.width = reqW) ∧
    (minH ≤ reqH →
      (onResizeMove s (mkResizeEvent minW minH reqW reqH)).pos.height = reqH) ∧
    (onResizeMove s (mkResizeEvent minW minH reqW reqH)).pos.x = s.pos.x ∧
    (onResizeMove s (mkResizeEvent minW minH reqW reqH)).pos.y = s.pos.y := by
  have hw :
      (onResizeMove s (mkResizeEvent minW minH reqW reqH)).pos.width
        = if reqW < minW then minW else reqW := rfl
  have hh :
      (onResizeMove s (mkResizeEvent minW minH reqW reqH)).pos.height
        = if reqH < minH then minH else reqH := rfl
  refine ⟨⟨?_, ?_⟩, fun h => ?_, fun h => ?_, fun h => ?_, fun h => ?_, ?_, ?_⟩
  · rw [hw]; split <;> simp_all [le_of_lt, le_of_not_lt]
  · rw [hh]; split <;> simp_all [le_of_lt, le_of_not_lt]
  · rw [hw]; simp [h]
  · rw [hh]; simp [h]
  · rw [hw]; simp [not_lt_of_le h]
  · rw [hh]; simp [not_lt_of_le h]
  · show s.pos.x + 0 = s.pos.x
    exact add_zero _
  · show s.pos.y + 0 = s.pos.y
    exact add_zero _

/-- Witness for claim C9: with minimum size 300 by 200, a shrink of a 320 by
220 panel toward 250 by 150 lands exactly on 300 by 200. -/
theorem resize_clamps_to_minSize_witness :
    (onResizeMove (applyPosition ⟨100, 100, 320, 220, 1⟩)
        (mkResizeEvent 300 200 250 150)).pos.width = 300 ∧
    (onResizeMove (applyPosition ⟨100, 100, 320, 220, 1⟩)
        (mkResizeEvent 300 200 250 150)).pos.height = 200 :=
  ⟨(resize_clamps_to_minSize 300 200 250 150
      (applyPosition ⟨100, 100, 320, 220, 1⟩)).2.1 (by decide),
   (resize_clamps_to_minSize 300 200 250 150
      (applyPosition ⟨100, 100, 320, 220, 1⟩)).2.2.1 (by decide)⟩

/-- Claim C1, counterexample: with two registered panels over empty storage,
panel a ends its gesture and then panel b ends its gesture inside the same
debounce window; when the shared timer fires there is exactly one persisted
write, but the persisted document holds only panel b — panel a's geometry,
although present in the in-memory map, is not persisted, so the stored
document is not the full in-memory geometry map. -/
theorem debounce_full_map_counterexample :
    afterBurst.store.writes = 1 ∧
    afterBurst.mem = [("a", gA2), ("b", gB2)] ∧
    loadLayouts afterBurst.store = some [("b", gB2)] ∧
    loadWidgetLayout afterBurst.store "a" = none ∧
    loadLayouts afterBurst.store ≠ some afterBurst.mem := by
  refine ⟨rfl, rfl, rfl, rfl, ?_⟩
  decide

/-- Claim C1, amended: any burst of gesture-end events inside one debounce
window produces exactly one persisted write when the shared timer fires, and
the persisted document is the previously stored layouts (empty when nothing
was stored) with only the entry of the panel whose gesture ended last updated
to its geometry as of that last event — not the full in-memory geometry map. -/
theorem debounce_single_write_amended (env : Env) (st : CoordState)
    (earlier : List (PanelId × Geometry)) (lastE : PanelId × Geometry)
    (h : env.writeOk = true) :
    (runEvents env st
        (((earlier ++ [lastE]).map fun e => LEvent.gestureEnd e.1 e.2)
          ++ [LEvent.fire])).store.writes = st.store.writes + 1 ∧
    loadLayouts (runEvents env st
        (((earlier ++ [lastE]).map fun e => LEvent.gestureEnd e.1 e.2)
          ++ [LEvent.fire])).store
      = some (setKey ((loadLayouts st.store).getD []) lastE.1 lastE.2) ∧
    loadWidgetLayout (runEvents env st
        (((earlier ++ [lastE]).map fun e => LEvent.gestureEnd e.1 e.2)
          ++ [LEvent.fire])).store lastE.1
      = some lastE.2 := by
  have hsplit :
      runEvents env st
          (((earlier ++ [lastE]).map fun e => LEvent.gestureEnd e.1 e.2)
            ++ [LEvent.fire])
        = timerFire env
            (gestureEndEvent
              (runEvents env st (earlier.map fun e => LEvent.gestureEnd e.1 e.2))
              lastE.1 lastE.2) := by
    simp [runEvents, stepEvent, List.foldl_append]
  have hmid := runEvents_gestureEnds_store env earlier st
  have hstore :
      (runEvents env st
          (((earlier ++ [lastE]).map fun e => LEvent.gestureEnd e.1 e.2)
            ++ [LEvent.fire])).store
        = saveWidgetLayout env st.store lastE.1 lastE.2 := by
    rw [hsplit]
    simp [timerFire, gestureEndEvent, debounceSave, hmid]
  refine ⟨?_, ?_, ?_⟩
  · rw [hstore]
    simp [saveWidgetLayout, saveLayouts, setItem, h]
  · rw [hstore]
    exact loadLayouts_saveLayouts env st.store _ h
  · rw [loadWidgetLayout, hstore]
    have hunfold : saveWidgetLayout env st.store lastE.1 lastE.2
        = saveLayouts env st.store
            (setKey ((loadLayouts st.store).getD []) lastE.1 lastE.2) := rfl
    rw [hunfold, loadLayouts_saveLayouts env st.store _ h]
    exact lookupLayout_setKey_self _ _ _

/-- Witness for the amended claim C1: the two-panel burst ends with write
count one and storage holding exactly the last panel's entry over the
previously empty map. -/
theorem debounce_single_write_amended_witness :
    (runEvents envOk twoPanelInit
        ((([("a", gA2)] ++ [("b", gB2)]).map
            fun e => LEvent.gestureEnd e.1 e.2)
          ++ [LEvent.fire])).store.writes = twoPanelInit.store.writes + 1 ∧
    loadLayouts (runEvents envOk twoPanelInit
        ((([("a", gA2)] ++ [("b", gB2)]).map
            fun e => LEvent.gestureEnd e.1 e.2)
          ++ [LEvent.fire])).store
      = some (setKey ((loadLayouts twoPanelInit.store).getD []) "b" gB2) ∧
    loadWidgetLayout (runEvents envOk twoPanelInit
        ((([("a", gA2)] ++ [("b", gB2)]).map
            fun e => LEvent.gestureEnd e.1 e.2)
          ++ [LEvent.fire])).store "b"
      = some gB2 :=
  debounce_single_write_amended envOk twoPanelInit [("a", gA2)] ("b", gB2) rfl

end NewTab
